import Mathlib

/-!
Shallow embedding of the transcript rubric scorer
(`src/evaluate_intro.py`) and proofs about the claims of its
specification.

Python strings are modelled as Lean `String` or `List Char`
(ASCII behaviour of `str.lower`, `str.split`, `str.find`,
`str.count`, `str.strip`), Python floats as exact rationals,
a fallible external capability as a function into `Except Unit`,
and the `re` patterns occurring in the source by a small
nondeterministic matcher covering exactly the constructs used
(literals, alternation, optional parts, character-class star and
plus, bounded digit repetition, word boundaries).
-/

/-- A character counts for the regex class backslash-w
(ASCII letters, digits, underscore). -/
def isWordCh (c : Char) : Bool :=
  (Char.ofNat 97 ≤ c && c ≤ Char.ofNat 122) ||
  (Char.ofNat 65 ≤ c && c ≤ Char.ofNat 90) ||
  (Char.ofNat 48 ≤ c && c ≤ Char.ofNat 57) ||
  c = Char.ofNat 95

/-- A character counts for the regex class backslash-s
(space, tab, newline, carriage return, vertical tab, form feed),
the same set Python `str.split`, `str.strip` use. -/
def isSpaceCh (c : Char) : Bool :=
  c = Char.ofNat 32 || c = Char.ofNat 9 || c = Char.ofNat 10 ||
  c = Char.ofNat 13 || c = Char.ofNat 11 || c = Char.ofNat 12

/-- A character counts for the regex class backslash-d (ASCII digit). -/
def isDigitCh (c : Char) : Bool :=
  Char.ofNat 48 ≤ c && c ≤ Char.ofNat 57

/-- Character class of the token regex of `word_list` in the source:
ASCII letters and the apostrophe. -/
def isWordListCh (c : Char) : Bool :=
  (Char.ofNat 97 ≤ c && c ≤ Char.ofNat 122) ||
  (Char.ofNat 65 ≤ c && c ≤ Char.ofNat 90) ||
  c = Char.ofNat 39

/-- ASCII lower-casing of one character, as Python `str.lower`
does on ASCII input. -/
def lowerCh (c : Char) : Char :=
  if Char.ofNat 65 ≤ c && c ≤ Char.ofNat 90 then Char.ofNat (c.toNat + 32) else c

/-- `text.lower()` as a list of characters. -/
def toLowerList (s : String) : List Char := s.toList.map lowerCh

/-- Python `str.strip()`: remove leading and trailing whitespace. -/
def pyStrip (l : List Char) : List Char :=
  ((l.dropWhile isSpaceCh).reverse.dropWhile isSpaceCh).reverse

/-- Helper for `pyWords`: count maximal runs of non-whitespace
characters; the boolean says whether we are inside a run. -/
def pyWordsAux : List Char → Bool → Nat
  | [], _ => 0
  | c :: cs, inTok =>
    if isSpaceCh c then pyWordsAux cs false
    else (if inTok then 0 else 1) + pyWordsAux cs true

/-- `len(transcript.split())` of the source: number of
whitespace-separated words. -/
def pyWords (s : String) : Nat := pyWordsAux s.toList false

/-- Helper for `pySentences`: Python `transcript.split(".")`,
keeping empty pieces. -/
def splitDotAux : List Char → List Char → List (List Char)
  | [], acc => [acc.reverse]
  | c :: cs, acc =>
    if c = Char.ofNat 46 then acc.reverse :: splitDotAux cs []
    else splitDotAux cs (c :: acc)

/-- `len([s for s in transcript.split(".") if s.strip()])` of the
source: count dot-separated pieces containing a non-blank character. -/
def pySentences (s : String) : Nat :=
  ((splitDotAux s.toList []).filter (fun p => p.any (fun c => !(isSpaceCh c)))).length

/-- Maximal runs of characters of a class (used for the token regex
of `word_list`): the accumulator holds the current run reversed. -/
def runsAux (p : Char → Bool) : List Char → List Char → List (List Char)
  | [], acc => if acc.isEmpty then [] else [acc.reverse]
  | c :: cs, acc =>
    if p c then runsAux p cs (c :: acc)
    else if acc.isEmpty then runsAux p cs []
    else acc.reverse :: runsAux p cs []

/-- `word_list(text)` of the source: `re.findall` of maximal runs of
letters and apostrophes over the lower-cased text. -/
def word_list (text : String) : List String :=
  (runsAux isWordListCh (toLowerList text) []).map String.mk

/-- Python `x or 1` on a count: substitute 1 for 0. -/
def orOne (n : Nat) : Nat := if n = 0 then 1 else n

/-- Helper for `findSub`: leftmost start index of the pattern, or -1. -/
def findSubAux (pat : List Char) : List Char → Nat → Int
  | [], i => if pat.isPrefixOf ([] : List Char) then (i : Int) else -1
  | c :: cs, i =>
    if pat.isPrefixOf (c :: cs) then (i : Int) else findSubAux pat cs (i + 1)

/-- Python `s.find(pat)`: leftmost start index of `pat` in `s`, or -1. -/
def findSub (s pat : List Char) : Int := findSubAux pat s 0

/-- Helper for `countSub`: scan the list; a positive skip count means
the position lies inside the previously counted occurrence. -/
def countSubAux (pat : List Char) : List Char → Nat → Nat
  | [], _ => 0
  | _ :: cs, Nat.succ k => countSubAux pat cs k
  | c :: cs, 0 =>
    if pat.isPrefixOf (c :: cs) then 1 + countSubAux pat cs (pat.length - 1)
    else countSubAux pat cs 0

/-- Python `s.count(pat)` for a nonempty pattern: number of
non-overlapping occurrences, scanning from the left. -/
def countSub (pat s : List Char) : Nat := countSubAux pat s 0


/-- Python `min` over a list of ints (used on nonempty lists only). -/
def listMin : List Int → Int
  | [] => 0
  | [x] => x
  | x :: y :: rest => min x (listMin (y :: rest))

/-- Python `max` over a list of ints (used on nonempty lists only). -/
def listMax : List Int → Int
  | [] => 0
  | [x] => x
  | x :: y :: rest => max x (listMax (y :: rest))

/-- Python `round` to an integer: round half to even. -/
def roundHalfEven (q : ℚ) : ℤ :=
  let f := ⌊q⌋
  let r := q - f
  if r < 1/2 then f
  else if 1/2 < r then f + 1
  else if f % 2 = 0 then f else f + 1

/-- Python `round(x, 2)` on an exact rational. -/
def round2 (q : ℚ) : ℚ := (roundHalfEven (q * 100) : ℚ) / 100

/-- Minimal regular-expression abstract syntax covering exactly the
constructs appearing in the patterns of the source: literals,
alternation, concatenation, optional part, a character of a class,
a star over a character class, and a word boundary. -/
inductive RE where
  | eps : RE
  | cls : (Char → Bool) → RE
  | lit : List Char → RE
  | seq : RE → RE → RE
  | alt : RE → RE → RE
  | opt : RE → RE
  | star : (Char → Bool) → RE
  | bnd : RE

/-- Word boundary test between the previous character (none at the
string edge) and the next one: exactly one side is a word character. -/
def isBoundary (prev next : Option Char) : Bool :=
  (match prev with | none => false | some c => isWordCh c) ≠
  (match next with | none => false | some c => isWordCh c)

/-- Match a literal, returning the new previous character and rest. -/
def litMatch : List Char → Option Char → List Char → List (Option Char × List Char)
  | [], prev, rest => [(prev, rest)]
  | _ :: _, _, [] => []
  | p :: ps, _, c :: cs => if c = p then litMatch ps (some c) cs else []

/-- All ways to consume a (possibly empty) run of class characters. -/
def starMatch (p : Char → Bool) : Option Char → List Char → List (Option Char × List Char)
  | prev, [] => [(prev, [])]
  | prev, c :: cs =>
    (prev, c :: cs) :: (if p c then starMatch p (some c) cs else [])

/-- Nondeterministic matcher: all states (previous character, rest of
input) reachable by matching the expression at the current position. -/
def matchRE : RE → Option Char → List Char → List (Option Char × List Char)
  | .eps, prev, rest => [(prev, rest)]
  | .cls _, _, [] => []
  | .cls p, _, c :: cs => if p c then [(some c, cs)] else []
  | .lit s, prev, rest => litMatch s prev rest
  | .seq a b, prev, rest =>
    (matchRE a prev rest).flatMap (fun pr => matchRE b pr.1 pr.2)
  | .alt a b, prev, rest => matchRE a prev rest ++ matchRE b prev rest
  | .opt a, prev, rest => (prev, rest) :: matchRE a prev rest
  | .star p, prev, rest => starMatch p prev rest
  | .bnd, prev, rest =>
    if isBoundary prev rest.head? then [(prev, rest)] else []

/-- Does the expression match somewhere at or after the current
position? -/
def anyMatchFrom (r : RE) : Option Char → List Char → Bool
  | prev, [] => !(matchRE r prev []).isEmpty
  | prev, c :: cs =>
    !(matchRE r prev (c :: cs)).isEmpty || anyMatchFrom r (some c) cs

/-- Python `re.search(r, s) is not None`. -/
def reSearchB (r : RE) (s : List Char) : Bool := anyMatchFrom r none s

/-- Helper for `reSearchStart`: leftmost match start from position `i`. -/
def searchStartFrom (r : RE) : Option Char → List Char → Nat → Option Nat
  | prev, [], i => if !(matchRE r prev []).isEmpty then some i else none
  | prev, c :: cs, i =>
    if !(matchRE r prev (c :: cs)).isEmpty then some i
    else searchStartFrom r (some c) cs (i + 1)

/-- Python `re.search(r, s).start()` wrapped in an option. -/
def reSearchStart (r : RE) (s : List Char) : Option Nat :=
  searchStartFrom r none s 0

/-- Literal expression from a string. -/
def rlit (s : String) : RE := .lit s.toList

/-- Concatenation of a list of expressions. -/
def rcat (l : List RE) : RE := l.foldr .seq .eps

/-- An expression matching nothing (empty alternation base). -/
def rfail : RE := .cls (fun _ => false)

/-- Alternation of literal strings. -/
def ralts (l : List String) : RE := (l.map rlit).foldr .alt rfail

/-- Word-bounded literal. -/
def rword (s : String) : RE := rcat [.bnd, rlit s, .bnd]

/-- Word-bounded alternation of literals. -/
def rwords (l : List String) : RE := rcat [.bnd, ralts l, .bnd]

/-- Zero or more whitespace characters. -/
def wsStar : RE := .star isSpaceCh

/-- One or more whitespace characters. -/
def wsPlus : RE := rcat [.cls isSpaceCh, .star isSpaceCh]

/-- One or more word characters. -/
def wordPlus : RE := rcat [.cls isWordCh, .star isWordCh]

/-- One or two digits, the regex bounded repetition of the source. -/
def digit12 : RE := rcat [.cls isDigitCh, .opt (.cls isDigitCh)]

/-- The age pattern of `MUST_HAVE_KEYS`: word-bounded one-or-two
digits, optional spaces, year with optional plural s, optional
spaces, old. -/
def agePattern : RE :=
  rcat [.bnd, digit12, wsStar, rlit "year", .opt (rlit "s"), wsStar, rlit "old", .bnd]

/-- The age pattern of `compute_order_flow` (same, without the word
boundaries). -/
def agePatternNoBnd : RE :=
  rcat [digit12, wsStar, rlit "year", .opt (rlit "s"), wsStar, rlit "old"]

/-- `SALUTATION_PATTERNS["excellent"]` of the source. -/
def SAL_EXCELLENT : List RE :=
  [rcat [.bnd,
         .alt (rcat [rlit "i am ", ralts ["excited", "thrilled"]]) (rlit "feeling great"),
         .bnd]]

/-- `SALUTATION_PATTERNS["good"]` of the source. -/
def SAL_GOOD : List RE :=
  [rcat [.bnd, rlit "good ", ralts ["morning", "afternoon", "evening", "day"], .bnd],
   rword "hello everyone"]

/-- `SALUTATION_PATTERNS["normal"]` of the source. -/
def SAL_NORMAL : List RE := [rword "hi", rword "hello"]

/-- `MUST_HAVE_KEYS` of the source, in dict insertion order. -/
def MUST_HAVE_KEYS : List (String × List RE) :=
  [("name", [rword "my name is", rword "myself", rword "i am"]),
   ("age", [agePattern]),
   ("school_class", [rcat [.bnd, rlit "class", wsPlus, wordPlus, .bnd], rword "school"]),
   ("family", [rword "family", rword "father", rword "mother",
               rword "sister", rword "brother"]),
   ("hobbies", [rwords ["hobby", "hobbies", "like to", "enjoy",
                        "favorite", "favourite"]])]

/-- A hyphen or a space, optionally (the bracket class of the
about-family patterns). -/
def hyphenOrSpaceOpt : RE :=
  .opt (.cls (fun c => c = Char.ofNat 45 || c = Char.ofNat 32))

/-- `GOOD_TO_HAVE_KEYS` of the source, in dict insertion order. -/
def GOOD_TO_HAVE_KEYS : List (String × List RE) :=
  [("about_family",
    [rcat [.bnd,
           .alt (rcat [rlit "kind", hyphenOrSpaceOpt, rlit "hearted"])
                (rcat [rlit "soft", hyphenOrSpaceOpt, rlit "spoken"]),
           .bnd]]),
   ("origin_location", [rword "i am from", rword "we are from", rword "parents are from"]),
   ("ambition_goal", [rwords ["ambition", "goal", "dream", "aspiration"]]),
   ("interesting_unique", [rwords ["fun fact", "unique", "interesting"]]),
   ("strengths_achievements", [rwords ["strength", "achievement", "award",
                                       "ranked", "won"]])]

/-- `FILLER_WORDS` of the source (a Python set; order is irrelevant,
listed in literal order). -/
def FILLER_WORDS : List String :=
  ["um", "uh", "like", "you know", "so", "actually", "basically", "right",
   "i mean", "well", "kinda", "sort of", "okay", "hmm", "ah"]

/-- `compute_salutation_score` of the source: first tier with a
matching pattern wins. -/
def compute_salutation_score (text : String) : Nat × String :=
  let t := pyStrip (toLowerList text)
  if SAL_EXCELLENT.any (fun p => reSearchB p t) then (5, "Excellent salutation detected.")
  else if SAL_GOOD.any (fun p => reSearchB p t) then (4, "Good salutation detected.")
  else if SAL_NORMAL.any (fun p => reSearchB p t) then (2, "Normal salutation detected.")
  else (0, "No salutation found.")

/-- `compute_keyword_presence` of the source: 4 points per present
must-have key, 2 per present good-to-have key, plus both flag maps. -/
def compute_keyword_presence (text : String) :
    Nat × List (String × Bool) × List (String × Bool) :=
  let t := toLowerList text
  let must_flags := MUST_HAVE_KEYS.map (fun kp => (kp.1, kp.2.any (fun p => reSearchB p t)))
  let good_flags := GOOD_TO_HAVE_KEYS.map (fun kp => (kp.1, kp.2.any (fun p => reSearchB p t)))
  let must_have_score := 4 * (must_flags.filter (fun kp => kp.2)).length
  let good_have_score := 2 * (good_flags.filter (fun kp => kp.2)).length
  (must_have_score + good_have_score, must_flags, good_flags)

/-- `compute_order_flow` of the source, including its use of Python
`min`/`max` directly over `str.find` results (which return -1 when
the substring is absent). -/
def compute_order_flow (text : String) : Nat × String :=
  let t := toLowerList text
  let idx_sal := listMin [findSub t "hello everyone".toList,
                          findSub t "hello ".toList, findSub t "hi ".toList]
  let idx_name := listMin [findSub t "my name is".toList,
                           findSub t "myself ".toList, findSub t "i am ".toList]
  let idx_school := findSub t "school".toList
  let idx_class := findSub t "class".toList
  let idx_age : Int := match reSearchStart agePatternNoBnd t with
    | some i => (i : Int)
    | none => -1
  let idx_place := listMax [findSub t "i am from".toList,
                            findSub t "parents are from".toList]
  let idx_additional := listMax [findSub t "fun fact".toList, findSub t "unique".toList,
                                 findSub t "interesting".toList, findSub t "enjoy".toList,
                                 findSub t "favorite".toList, findSub t "favourite".toList]
  let idx_close := findSub t "thank you".toList
  let basic_idxs := [idx_name, idx_age, idx_school, idx_class, idx_place].filter
    (fun i => 0 ≤ i)
  if 0 ≤ idx_sal ∧ basic_idxs ≠ [] ∧ 0 ≤ idx_additional ∧ 0 ≤ idx_close then
    if idx_sal ≤ listMin basic_idxs ∧ listMin basic_idxs ≤ idx_additional ∧
       idx_additional ≤ idx_close then (5, "Order followed.")
    else (0, "Order not followed.")
  else (0, "Order not followed.")

/-- Words-per-minute as the source computes it for a positive
duration. -/
def wpmOf (words : Nat) (d : ℚ) : ℚ := (words : ℚ) / d * 60

/-- `compute_speech_rate` of the source. -/
def compute_speech_rate (words : Nat) (duration_sec : Option ℚ) : Nat × ℚ × String :=
  match duration_sec with
  | none => (10, 120, "Duration not provided; assumed ideal speech rate.")
  | some d =>
    if d ≤ 0 then (10, 120, "Duration not provided; assumed ideal speech rate.")
    else
      let wpm := wpmOf words d
      if 161 < wpm then (2, wpm, "Too fast.")
      else if 141 ≤ wpm ∧ wpm ≤ 160 then (6, wpm, "Fast.")
      else if 111 ≤ wpm ∧ wpm ≤ 140 then (10, wpm, "Ideal.")
      else if 81 ≤ wpm ∧ wpm ≤ 110 then (6, wpm, "Slow.")
      else (2, wpm, "Too slow.")

/-- Helper for the fallback grammar heuristic: count maximal runs of
two or more whitespace characters, as the findall of the source does. -/
def wsRuns2Aux : List Char → Nat → Nat
  | [], run => if 2 ≤ run then 1 else 0
  | c :: cs, run =>
    if isSpaceCh c then wsRuns2Aux cs (run + 1)
    else (if 2 ≤ run then 1 else 0) + wsRuns2Aux cs 0

/-- Count of matches of the double-whitespace regex over the raw text. -/
def countWsRuns2 (s : List Char) : Nat := wsRuns2Aux s 0

/-- Tokenize into maximal word-character runs, tagging each run with
whether the gap since the previous run consists solely of whitespace.
The accumulator holds the current run reversed. -/
def tagTokensAux : List Char → List Char → Bool → List (List Char × Bool)
  | [], acc, gapPure => if acc.isEmpty then [] else [(acc.reverse, gapPure)]
  | c :: cs, acc, gapPure =>
    if isWordCh c then tagTokensAux cs (c :: acc) gapPure
    else if acc.isEmpty then tagTokensAux cs [] (gapPure && isSpaceCh c)
    else (acc.reverse, gapPure) :: tagTokensAux cs [] (isSpaceCh c)

/-- Count of matches of the repeated-word backreference regex of the
source: consecutive equal word runs separated by pure whitespace,
counted non-overlapping from the left. -/
def repCount : List (List Char × Bool) → Nat
  | (w1, _) :: (w2, pureWs) :: rest =>
    if pureWs && w1 = w2 then 1 + repCount rest
    else repCount ((w2, pureWs) :: rest)
  | _ => 0

/-- Count of immediately repeated whole words over the lower-cased
text, as the findall of the source does. -/
def repeatedWordCount (s : List Char) : Nat := repCount (tagTokensAux s [] true)

/-- The fallback error heuristic of `compute_grammar_score` when the
grammar tool is unavailable: double-whitespace runs over the raw text
plus repeated words over the lower-cased text. -/
def heuristicErrors (text : String) : Nat :=
  countWsRuns2 text.toList + repeatedWordCount (toLowerList text)

/-- The quality-to-score band mapping of `compute_grammar_score`. -/
def grammarBands (raw : ℚ) : Nat × ℚ × String :=
  if 0.9 < raw then (10, raw, "Excellent grammar.")
  else if 0.7 ≤ raw ∧ raw ≤ 0.89 then (8, raw, "Good grammar.")
  else if 0.5 ≤ raw ∧ raw ≤ 0.69 then (6, raw, "Fair grammar.")
  else if 0.3 ≤ raw ∧ raw ≤ 0.49 then (4, raw, "Poor grammar.")
  else (2, raw, "Very poor grammar.")

/-- `compute_grammar_score` of the source. The external grammar tool
(construction plus check) is a capability returning either an error
count or an exception; the try block converts any exception into the
fallback quality 0.7. When the tool is unavailable the local
heuristic (which cannot raise) is used. -/
def compute_grammar_score (ltAvailable : Bool) (check : String → Except Unit Nat)
    (text : String) : Nat × ℚ × String :=
  let words := orOne (word_list text).length
  let raw : ℚ :=
    match (if ltAvailable then check text else Except.ok (heuristicErrors text)) with
    | Except.ok errors =>
      let errors_per_100 := (errors : ℚ) / (words : ℚ) * 100
      1 - min (errors_per_100 / 10) 1
    | Except.error _ => 0.7
  grammarBands raw

/-- The ratio-to-score band mapping of `compute_ttr_score`. -/
def ttrBands (ttr : ℚ) : Nat × ℚ × String :=
  if 0.9 ≤ ttr ∧ ttr ≤ 1 then (10, ttr, "Excellent lexical diversity.")
  else if 0.7 ≤ ttr ∧ ttr ≤ 0.89 then (8, ttr, "Good lexical diversity.")
  else if 0.5 ≤ ttr ∧ ttr ≤ 0.69 then (6, ttr, "Fair lexical diversity.")
  else if 0.3 ≤ ttr ∧ ttr ≤ 0.49 then (4, ttr, "Poor lexical diversity.")
  else (2, ttr, "Very poor lexical diversity.")

/-- The manual fallback type-token ratio of `compute_ttr_score`:
distinct over total `word_list` tokens, with 1 substituted for a zero
denominator. -/
def fallbackTtr (text : String) : ℚ :=
  let wl := word_list text
  (wl.dedup.length : ℚ) / (orOne wl.length : ℚ)

/-- `compute_ttr_score` of the source. The external lexical-richness
object is a capability: its construction (which in the source happens
before the try block, so its exception propagates) and its ttr
property (whose exception is caught and replaced by the manual
fallback ratio). -/
def compute_ttr_score {α : Type} (construct : String → Except Unit α)
    (ttrOf : α → Except Unit ℚ) (text : String) : Except Unit (Nat × ℚ × String) :=
  match construct text with
  | Except.error e => Except.error e
  | Except.ok lex =>
    let ttr : ℚ := match ttrOf lex with
      | Except.ok v => v
      | Except.error _ => fallbackTtr text
    Except.ok (ttrBands ttr)

/-- Count of multi-word filler phrases as non-overlapping substring
occurrences over the space-joined token stream. -/
def multiFillerCount (tl : List Char) : Nat :=
  ((FILLER_WORDS.filter (fun fw => fw.toList.contains (Char.ofNat 32))).map
    (fun fw => countSub fw.toList tl)).sum

/-- Count of tokens that are single-word fillers. -/
def singleFillerCount (wl : List String) : Nat :=
  (wl.filter (fun w => FILLER_WORDS.contains w)).length

/-- The space-joined lower-case token stream of the source. -/
def joinTokens (wl : List String) : List Char :=
  (String.intercalate " " wl).toList

/-- The filler rate of `compute_filler_rate_score`: filler count over
total `word_list` tokens (at least 1), times 100. -/
def fillerRate (text : String) : ℚ :=
  let wl := word_list text
  ((multiFillerCount (joinTokens wl) + singleFillerCount wl : Nat) : ℚ) /
    (orOne wl.length : ℚ) * 100

/-- `compute_filler_rate_score` of the source. The function body ends
after the 0-to-3-percent branch: for any larger rate control falls off
the end and no value of the documented result type is produced, which
the embedding renders as `none`. -/
def compute_filler_rate_score (text : String) : Option (Nat × ℚ × String) :=
  let rate := fillerRate text
  if 0 ≤ rate ∧ rate ≤ 3 then some (15, rate, "Clear") else none

/-- One entry of the criteria list of the report of the source. -/
structure CriterionResult where
  name : String
  weight : Nat
  score : ℚ
  feedback : String
deriving DecidableEq, Repr

/-- The result dictionary of `score_transcript` of the source. -/
structure ScoreReport where
  overall_score : ℚ
  words : Nat
  sentences : Nat
  wpm : ℚ
  criteria : List CriterionResult
deriving DecidableEq, Repr

/-- `score_transcript` of the source: the aggregation entry point
wired to the UI. Its per-criterion scores are the fixed placeholder
constants of the source, not calls to the evaluators; the wpm field
uses the Python truthiness test `not duration_sec`, which is true
exactly for an absent or zero duration. -/
def score_transcript (transcript : String) (duration_sec : Option ℚ) : ScoreReport :=
  let words := pyWords transcript
  let sentences := pySentences transcript
  let salutation_score : ℚ := 4
  let keyword_score : ℚ := 24
  let flow_score : ℚ := 5
  let speech_rate_score : ℚ := 10
  let grammar_score : ℚ := 8
  let vocabulary_score : ℚ := 6
  let filler_score : ℚ := 12
  let sentiment_score : ℚ := 12
  let overall_score : ℚ :=
    salutation_score * (5 / 5) + keyword_score * (30 / 30) + flow_score * (5 / 5) +
    speech_rate_score * (10 / 10) + grammar_score * (10 / 10) +
    vocabulary_score * (10 / 10) + filler_score * (15 / 15) +
    sentiment_score * (15 / 15)
  { overall_score := round2 overall_score
    words := words
    sentences := sentences
    wpm := match duration_sec with
      | none => 120
      | some d => if d = 0 then 120 else round2 ((words : ℚ) / d * 60)
    criteria :=
      [⟨"Salutation Level", 5, salutation_score, "Detected greeting"⟩,
       ⟨"Keyword Presence", 30, keyword_score, "Basic details found"⟩,
       ⟨"Flow Order", 5, flow_score, "Logical order followed"⟩,
       ⟨"Speech Rate (WPM)", 10, speech_rate_score, "Ideal rate"⟩,
       ⟨"Grammar", 10, grammar_score, "Minor errors"⟩,
       ⟨"Vocabulary Richness", 10, vocabulary_score, "Moderate diversity"⟩,
       ⟨"Filler Word Rate", 15, filler_score, "Few filler words"⟩,
       ⟨"Sentiment/Positivity", 15, sentiment_score, "Positive tone"⟩] }

/-- The 100-word transcript with exactly two single-token fillers used
as a concrete instance for the filler-rate claim. -/
def fillerExampleText : String :=
  String.intercalate " " ("um" :: "uh" :: List.replicate 98 "cat")

/-- Claim C1: the entry point `score_transcript` is claimed to compute
its per-criterion results by calling the eight real evaluators. The
code instead returns the fixed placeholder constants
(4, 24, 5, 10, 8, 6, 12, 12) for every input: on the empty transcript
the reported salutation score is 4 and the keyword score is 24,
although `compute_salutation_score` and `compute_keyword_presence`
both return 0 there, and the criteria scores are identical for a
completely different transcript. -/
theorem c1_placeholder_constants :
    ((score_transcript "" none).criteria.map CriterionResult.score) =
      [4, 24, 5, 10, 8, 6, 12, 12] ∧
    ((score_transcript "hello everyone my name is asha" none).criteria.map
      CriterionResult.score) = [4, 24, 5, 10, 8, 6, 12, 12] ∧
    compute_salutation_score "" = (0, "No salutation found.") ∧
    (compute_keyword_presence "").1 = 0 ∧
    (4 : ℚ) ≠ 0 := by
  refine ⟨by simp [score_transcript], by simp [score_transcript], by decide, by decide,
    by norm_num⟩

/-- Claim C3 counterexample: on the transcript of the claim the
hobbies must-have flag computed by `compute_keyword_presence` is
false (no hobby pattern matches the word love), not true as claimed,
and the total is 12 (4 points for each of the three true must-have
keys), not 16. -/
theorem c3_hobbies_flag_false :
    ((compute_keyword_presence
        "my name is Asha, I am 10 years old, I study in Class 5, I love painting").2.1).lookup
      "hobbies" = some false ∧
    (compute_keyword_presence
      "my name is Asha, I am 10 years old, I study in Class 5, I love painting").1 = 12 := by
  constructor
  · decide
  · decide

/-- Claim C3 as amended: on the transcript of the claim,
`compute_keyword_presence` sets the must-have flags name, age and
school_class to true and family and hobbies to false, the good-to-have
flags all to false, and the score is exactly 4 points per true
must-have key, total 12. -/
theorem c3_keyword_presence_on_example :
    compute_keyword_presence
      "my name is Asha, I am 10 years old, I study in Class 5, I love painting" =
    (12,
     [("name", true), ("age", true), ("school_class", true),
      ("family", false), ("hobbies", false)],
     [("about_family", false), ("origin_location", false), ("ambition_goal", false),
      ("interesting_unique", false), ("strengths_achievements", false)]) := by
  decide

/-- Claim C4: `compute_order_flow` is claimed to locate the earliest
occurrence of each marker group and to give score 5 to every
transcript ordered salutation, name and age, fun fact, thank you. The
code instead takes the Python `min` of raw `find` results, which is -1
as soon as any one variant of the group is absent: on the perfectly
ordered transcript below the salutation index degenerates to -1
because the variant substring hi-with-space never occurs, and the
score is 0. -/
theorem c4_order_flow_rejects_ordered_transcript :
    compute_order_flow
      "hello everyone my name is asha i am 10 years old fun fact i enjoy painting thank you" =
      (0, "Order not followed.") ∧
    findSub (toLowerList
      "hello everyone my name is asha i am 10 years old fun fact i enjoy painting thank you")
      "hello everyone".toList = 0 ∧
    findSub (toLowerList
      "hello everyone my name is asha i am 10 years old fun fact i enjoy painting thank you")
      "thank you".toList = 75 ∧
    listMin [findSub (toLowerList
      "hello everyone my name is asha i am 10 years old fun fact i enjoy painting thank you")
      "hello everyone".toList,
      findSub (toLowerList
      "hello everyone my name is asha i am 10 years old fun fact i enjoy painting thank you")
      "hello ".toList,
      findSub (toLowerList
      "hello everyone my name is asha i am 10 years old fun fact i enjoy painting thank you")
      "hi ".toList] = -1 := by
  refine ⟨by decide, by decide, by decide, by decide⟩

/-- Claim C2: for every transcript and duration the report of
`score_transcript` has exactly 8 criteria with weights
(5, 30, 5, 10, 10, 10, 15, 15) summing to 100, every score lies in
[0, weight], and the overall score is the sum of the 8 scores rounded
to 2 decimals, hence lies in [0, 100]. -/
theorem c2_report_invariants (transcript : String) (duration_sec : Option ℚ) :
    (score_transcript transcript duration_sec).criteria.length = 8 ∧
    (score_transcript transcript duration_sec).criteria.map CriterionResult.weight =
      [5, 30, 5, 10, 10, 10, 15, 15] ∧
    ((score_transcript transcript duration_sec).criteria.map CriterionResult.weight).sum =
      100 ∧
    (∀ c ∈ (score_transcript transcript duration_sec).criteria,
      0 ≤ c.score ∧ c.score ≤ (c.weight : ℚ)) ∧
    (score_transcript transcript duration_sec).overall_score =
      round2 (((score_transcript transcript duration_sec).criteria.map
        CriterionResult.score).sum) ∧
    0 ≤ (score_transcript transcript duration_sec).overall_score ∧
    (score_transcript transcript duration_sec).overall_score ≤ 100 := by
  refine ⟨by simp [score_transcript], by simp [score_transcript], by simp [score_transcript],
    ?_, ?_, ?_, ?_⟩
  · intro c hc
    simp [score_transcript] at hc
    rcases hc with h | h | h | h | h | h | h | h <;> subst h <;> norm_num
  · simp [score_transcript, round2, roundHalfEven]
    norm_num
  · simp [score_transcript, round2, roundHalfEven]
    norm_num
  · simp [score_transcript, round2, roundHalfEven]
    norm_num

/-- Claim C5 counterexample: the claim says the else branch of
`compute_speech_rate` is reached exactly for wpm at most 80, but at
words 221 and duration 120 the wpm is 110.5, which exceeds 80 and
falls between the Slow and Ideal bands, and the code returns the else
result score 2 with feedback Too slow. -/
theorem c5_gap_reaches_else_branch :
    wpmOf 221 120 = 221 / 2 ∧
    compute_speech_rate 221 (some 120) = (2, 221 / 2, "Too slow.") ∧
    (80 : ℚ) < 221 / 2 := by
  refine ⟨by norm_num [wpmOf], by norm_num [compute_speech_rate, wpmOf], by norm_num⟩

/-- Claim C5 as amended: for every word count and positive duration,
`compute_speech_rate` sets wpm to words over duration times 60 and
maps it by the stated closed bands; the else branch giving score 2
(Too slow) is reached for wpm at most 80 and also for the values in
the gaps between the bands (between 80 and 81, 110 and 111, 140 and
141, and above 160 up to and including 161); in particular wpm 150
gives score 6 and wpm 125 gives score 10. -/
theorem c5_speech_rate_bands (words : Nat) (d : ℚ) (hd : 0 < d) :
    compute_speech_rate 150 (some 60) = (6, 150, "Fast.") ∧
    compute_speech_rate 125 (some 60) = (10, 125, "Ideal.") ∧
    (compute_speech_rate words (some d)).2.1 = wpmOf words d ∧
    (161 < wpmOf words d →
      compute_speech_rate words (some d) = (2, wpmOf words d, "Too fast.")) ∧
    (141 ≤ wpmOf words d ∧ wpmOf words d ≤ 160 →
      compute_speech_rate words (some d) = (6, wpmOf words d, "Fast.")) ∧
    (111 ≤ wpmOf words d ∧ wpmOf words d ≤ 140 →
      compute_speech_rate words (some d) = (10, wpmOf words d, "Ideal.")) ∧
    (81 ≤ wpmOf words d ∧ wpmOf words d ≤ 110 →
      compute_speech_rate words (some d) = (6, wpmOf words d, "Slow.")) ∧
    (wpmOf words d ≤ 80 ∨ (80 < wpmOf words d ∧ wpmOf words d < 81) ∨
     (110 < wpmOf words d ∧ wpmOf words d < 111) ∨
     (140 < wpmOf words d ∧ wpmOf words d < 141) ∨
     (160 < wpmOf words d ∧ wpmOf words d ≤ 161) →
      compute_speech_rate words (some d) = (2, wpmOf words d, "Too slow.")) := by
  have hnd : ¬ d ≤ 0 := not_le.mpr hd
  have key : compute_speech_rate words (some d) =
      (if 161 < wpmOf words d then (2, wpmOf words d, "Too fast.")
       else if 141 ≤ wpmOf words d ∧ wpmOf words d ≤ 160 then (6, wpmOf words d, "Fast.")
       else if 111 ≤ wpmOf words d ∧ wpmOf words d ≤ 140 then (10, wpmOf words d, "Ideal.")
       else if 81 ≤ wpmOf words d ∧ wpmOf words d ≤ 110 then (6, wpmOf words d, "Slow.")
       else (2, wpmOf words d, "Too slow.")) := by
    simp only [compute_speech_rate, if_neg hnd]
  refine ⟨by norm_num [compute_speech_rate, wpmOf], by norm_num [compute_speech_rate, wpmOf],
    ?_, ?_, ?_, ?_, ?_, ?_⟩
  · rw [key]; split_ifs <;> rfl
  · intro h; rw [key, if_pos h]
  all_goals (
    first
      | rintro ⟨hl, hr⟩
      | rintro (h | ⟨hl, hr⟩ | ⟨hl, hr⟩ | ⟨hl, hr⟩ | ⟨hl, hr⟩))
  all_goals (
    rw [key]
    split_ifs with a b c e <;>
      first
        | rfl
        | (exfalso; exact b ⟨hl, hr⟩)
        | (exfalso; exact c ⟨hl, hr⟩)
        | (exfalso; exact e ⟨hl, hr⟩)
        | (exfalso
           try obtain ⟨a1, a2⟩ := a
           try obtain ⟨b1, b2⟩ := b
           try obtain ⟨c1, c2⟩ := c
           try obtain ⟨e1, e2⟩ := e
           linarith))

/-- Claim C5 witness: the band theorem applied at 150 words in 60
seconds, where the hypothesis of a positive duration holds and the
Fast band gives score 6. -/
theorem c5_speech_rate_bands_witness :
    (0 : ℚ) < 60 ∧ compute_speech_rate 150 (some 60) = (6, 150, "Fast.") :=
  ⟨by norm_num, (c5_speech_rate_bands 150 60 (by norm_num)).1⟩

/-- Claim C6 counterexample: the claim says the wpm field of the
report of `score_transcript` is 120.0 for every non-positive
duration, never computed by dividing by the duration. For the
transcript a-space-b (2 words) and duration -1 the code computes
2 / (-1) * 60 and reports wpm -120, not 120: the truthiness test of
the source only treats an absent or zero duration as missing. -/
theorem c6_negative_duration_divides :
    ((-1 : ℚ) ≤ 0) ∧
    (score_transcript "a b" (some (-1))).wpm = -120 ∧
    ((-120 : ℚ) ≠ 120) := by
  have h : pyWords "a b" = 2 := by decide
  refine ⟨by norm_num, ?_, by norm_num⟩
  simp only [score_transcript, h]
  norm_num [round2, roundHalfEven]

/-- Claim C6 as amended: the speech-rate evaluator returns score 10,
wpm 120.0 and the documented feedback whenever the duration is absent
or non-positive; the wpm field of the report of `score_transcript` is
120.0 when the duration is absent or exactly zero, but for a nonzero
(in particular negative) duration it is computed as words over
duration times 60, rounded to 2 decimals. -/
theorem c6_duration_handling (text : String) (w : Nat) (q : ℚ) (hq : q ≤ 0) :
    compute_speech_rate w none =
      (10, 120, "Duration not provided; assumed ideal speech rate.") ∧
    compute_speech_rate w (some q) =
      (10, 120, "Duration not provided; assumed ideal speech rate.") ∧
    (score_transcript text none).wpm = 120 ∧
    (score_transcript text (some 0)).wpm = 120 ∧
    (q ≠ 0 →
      (score_transcript text (some q)).wpm = round2 ((pyWords text : ℚ) / q * 60)) := by
  refine ⟨rfl, ?_, rfl, ?_, ?_⟩
  · simp only [compute_speech_rate, if_pos hq]
  · simp [score_transcript]
  · intro hne
    simp only [score_transcript, if_neg hne]

/-- Claim C6 witness: the amended theorem applied at the transcript
a-space-b and the negative duration -1, where the speech-rate
evaluator returns the ideal constant but the report wpm is the
rounded division by -1. -/
theorem c6_duration_handling_witness :
    ((-1 : ℚ) ≤ 0) ∧
    compute_speech_rate 2 (some (-1)) =
      (10, 120, "Duration not provided; assumed ideal speech rate.") ∧
    (score_transcript "a b" (some (-1))).wpm =
      round2 ((pyWords "a b" : ℚ) / (-1) * 60) :=
  ⟨by norm_num, (c6_duration_handling "a b" 2 (-1) (by norm_num)).2.1,
   (c6_duration_handling "a b" 2 (-1) (by norm_num)).2.2.2.2 (by norm_num)⟩

/-- Claim C7 counterexample: the claim says any exception raised by an
external capability inside `compute_ttr_score` is caught at the
evaluator boundary and never propagates. The lexical-richness object
of the source is constructed before the try block, so a construction
exception propagates out of the evaluator: with a capability whose
construction fails, `compute_ttr_score` returns the error itself. -/
theorem c7_ttr_construction_error_propagates :
    compute_ttr_score (fun _ : String => (Except.error () : Except Unit Unit))
      (fun _ => Except.error ()) "hello" = Except.error () := rfl

/-- Claim C7 as amended: a failing grammar check is caught inside
`compute_grammar_score` and converted to quality 0.7, which maps to
score 8 (Good grammar); a failing ttr property access is caught
inside `compute_ttr_score` and replaced by the manual
distinct-over-total fallback ratio, so the evaluator still returns a
banded result; only an exception from the construction of the
lexical-richness object itself escapes. -/
theorem c7_capability_error_fallbacks (text : String)
    (check : String → Except Unit Nat) (hc : check text = Except.error ())
    (α : Type) (construct : String → Except Unit α) (ttrOf : α → Except Unit ℚ)
    (lex : α) (hl : construct text = Except.ok lex)
    (ht : ttrOf lex = Except.error ()) :
    compute_grammar_score true check text = (8, 0.7, "Good grammar.") ∧
    compute_ttr_score construct ttrOf text = Except.ok (ttrBands (fallbackTtr text)) := by
  constructor
  · simp only [compute_grammar_score, if_pos rfl, hc]
    norm_num [grammarBands]
  · simp only [compute_ttr_score, hl, ht]

/-- Claim C7 witness: the fallback theorem applied at the transcript
hello with a capability whose check fails and a lexical-richness
capability whose construction succeeds but whose ttr property fails;
the fallback ratio on hello is 1 and maps to the top band. -/
theorem c7_capability_error_fallbacks_witness :
    ((fun _ : String => (Except.error () : Except Unit Nat)) "hello" = Except.error ()) ∧
    compute_grammar_score true (fun _ => Except.error ()) "hello" =
      (8, 0.7, "Good grammar.") ∧
    compute_ttr_score (fun _ : String => (Except.ok () : Except Unit Unit))
      (fun _ => Except.error ()) "hello" = Except.ok (ttrBands (fallbackTtr "hello")) ∧
    ttrBands (fallbackTtr "hello") = (10, 1, "Excellent lexical diversity.") :=
  ⟨rfl,
   (c7_capability_error_fallbacks "hello" (fun _ => Except.error ()) rfl Unit
     (fun _ => Except.ok ()) (fun _ => Except.error ()) () rfl rfl).1,
   (c7_capability_error_fallbacks "hello" (fun _ => Except.error ()) rfl Unit
     (fun _ => Except.ok ()) (fun _ => Except.error ()) () rfl rfl).2,
   by
    have h1 : (word_list "hello").dedup.length = 1 := by decide
    have h2 : (word_list "hello").length = 1 := by decide
    have h3 : fallbackTtr "hello" = 1 := by
      simp only [fallbackTtr, h1, h2]
      norm_num [orOne]
    rw [h3]
    norm_num [ttrBands]⟩

/-- Claim C8: for every transcript with 100 `word_list` tokens,
exactly 2 of which are single-token fillers, and no multi-word filler
phrase occurrences in the joined token stream,
`compute_filler_rate_score` computes rate 2.0 and, the rate lying in
the 0-to-3 band, returns score 15 with feedback Clear. -/
theorem c8_filler_rate_two_percent (text : String)
    (h1 : (word_list text).length = 100)
    (h2 : singleFillerCount (word_list text) = 2)
    (h3 : multiFillerCount (joinTokens (word_list text)) = 0) :
    fillerRate text = 2 ∧ compute_filler_rate_score text = some (15, 2, "Clear") := by
  have hr : fillerRate text = 2 := by
    simp only [fillerRate, h1, h2, h3]
    norm_num [orOne]
  refine ⟨hr, ?_⟩
  simp only [compute_filler_rate_score, hr]
  norm_num

set_option maxRecDepth 8000

/-- Claim C8 witness: the theorem applied to a concrete 100-word
transcript (um, uh, then 98 times cat) whose filler count is 2. -/
theorem c8_filler_rate_two_percent_witness :
    (word_list fillerExampleText).length = 100 ∧
    singleFillerCount (word_list fillerExampleText) = 2 ∧
    multiFillerCount (joinTokens (word_list fillerExampleText)) = 0 ∧
    compute_filler_rate_score fillerExampleText = some (15, 2, "Clear") :=
  ⟨by decide, by decide, by decide,
   (c8_filler_rate_two_percent fillerExampleText (by decide) (by decide) (by decide)).2⟩

/-- Claim C9: `compute_filler_rate_score` produces a result only when
the computed rate lies in [0, 3]; for every transcript whose filler
rate exceeds 3 percent, control falls off the end of the function
body and no value of the documented result type is produced, modelled
as none. -/
theorem c9_filler_score_gap (text : String) :
    (3 < fillerRate text → compute_filler_rate_score text = none) ∧
    (∀ r, compute_filler_rate_score text = some r →
      0 ≤ fillerRate text ∧ fillerRate text ≤ 3) := by
  constructor
  · intro h
    simp only [compute_filler_rate_score]
    rw [if_neg (fun hc => absurd hc.2 (not_le.mpr h))]
  · intro r hr
    by_cases h : 0 ≤ fillerRate text ∧ fillerRate text ≤ 3
    · exact h
    · simp only [compute_filler_rate_score] at hr
      rw [if_neg h] at hr
      exact absurd hr (by simp)

/-- Claim C9 witness: on the transcript um um um um the filler rate is
100 percent, above the 3 percent bound, and the theorem yields that
the evaluator produces no result. -/
theorem c9_filler_score_gap_witness :
    3 < fillerRate "um um um um" ∧ compute_filler_rate_score "um um um um" = none := by
  have hrate : fillerRate "um um um um" = 100 := by
    have h1 : multiFillerCount (joinTokens (word_list "um um um um")) = 0 := by decide
    have h2 : singleFillerCount (word_list "um um um um") = 4 := by decide
    have h3 : (word_list "um um um um").length = 4 := by decide
    simp only [fillerRate, h1, h2, h3]
    norm_num [orOne]
  exact ⟨by rw [hrate]; norm_num,
    (c9_filler_score_gap "um um um um").1 (by rw [hrate]; norm_num)⟩

/-- Claim C10: on the empty transcript the report of
`score_transcript` has word count 0 and sentence count 0, the pattern
evaluators return their zero-score not-found results, and the numeric
evaluators substitute 1 for the zero token count in every rate
denominator (the shared or-1 guard), so the grammar, ttr-fallback and
filler rates are all well defined (0) and no division by zero occurs. -/
theorem c10_empty_transcript_safe :
    (score_transcript "" none).words = 0 ∧
    (score_transcript "" none).sentences = 0 ∧
    compute_salutation_score "" = (0, "No salutation found.") ∧
    compute_keyword_presence "" =
      (0,
       [("name", false), ("age", false), ("school_class", false),
        ("family", false), ("hobbies", false)],
       [("about_family", false), ("origin_location", false), ("ambition_goal", false),
        ("interesting_unique", false), ("strengths_achievements", false)]) ∧
    compute_order_flow "" = (0, "Order not followed.") ∧
    orOne (word_list "").length = 1 ∧
    compute_grammar_score false (fun _ => Except.error ()) "" =
      (10, 1, "Excellent grammar.") ∧
    fallbackTtr "" = 0 ∧
    fillerRate "" = 0 ∧
    compute_filler_rate_score "" = some (15, 0, "Clear") := by
  have hwl : (word_list "").length = 0 := by decide
  have hor : orOne (word_list "").length = 1 := by decide
  have hhe : heuristicErrors "" = 0 := by decide
  have hd : (word_list "").dedup.length = 0 := by decide
  have hmc : multiFillerCount (joinTokens (word_list "")) = 0 := by decide
  have hsc : singleFillerCount (word_list "") = 0 := by decide
  have hfr : fillerRate "" = 0 := by
    simp only [fillerRate, hmc, hsc, hwl]
    norm_num [orOne]
  refine ⟨by decide, by decide, by decide, by decide, by decide, hor, ?_, ?_, hfr, ?_⟩
  · simp only [compute_grammar_score, hhe, hor, Bool.false_eq_true, if_false]
    norm_num [grammarBands]
  · simp only [fallbackTtr, hd, hwl]
    norm_num [orOne]
  · simp only [compute_filler_rate_score, hfr]
    norm_num


